import Mathlib

/-!
Verification development for the Cloudflare worker in `src/_worker.js`
(kronksturkeyclubsite): a shared-state "league room" durable object that
persists a `teams` document, broadcasts updates over server-sent events,
and a stateless fantasy-football scoring transform over ESPN box scores.

JavaScript values that the room handles are modelled by a small `Json`
inductive; machine timestamps (`new Date().toISOString()`) are modelled as
natural numbers (ISO-8601 strings compare chronologically, so `Nat` order
is faithful); listener channels (`TransformStream` writers held in the
`sessions` set) are modelled by their identities in a `Finset Nat`,
together with an oracle `failing : Nat → Bool` saying whose `write`
rejects.
-/

/-- JSON values, as produced by `request.json()` in the worker. -/
inductive Json where
  | null : Json
  | bool : Bool → Json
  | num : ℚ → Json
  | str : String → Json
  | arr : List Json → Json
  | obj : List (String × Json) → Json

/-- JavaScript truthiness of a JSON value (`body || {}` at line 243):
`null`, `false`, `0` and `""` are falsy, arrays and objects are truthy. -/
def truthy : Json → Bool
  | .null => false
  | .bool b => b
  | .num q => q ≠ 0
  | .str s => s ≠ ""
  | .arr _ => true
  | .obj _ => true

/-- `body || {}` (line 243): a falsy body is replaced by the empty object. -/
def jsOrDefault (j : Json) : Json :=
  if truthy j then j else Json.obj []

/-- Property lookup on an object's field list (first match). -/
def lookupField : List (String × Json) → String → Option Json
  | [], _ => none
  | (k, v) :: rest, key => if k = key then some v else lookupField rest key

/-- JavaScript property access `x.teams`: an own property on an object,
`undefined` (`none`) on every non-object value — primitives and arrays
have no `teams` property, and destructuring them does not throw. -/
def getProp (j : Json) (key : String) : Option Json :=
  match j with
  | .obj fields => lookupField fields key
  | _ => none

/-- `const \x7b teams \x7d = body || \x7b\x7d` (line 243). -/
def teamsField (b : Json) : Option Json :=
  getProp (jsOrDefault b) "teams"

/-- `Array.isArray(teams)` (line 244) on the possibly-undefined field. -/
def isArrayOpt : Option Json → Bool
  | some (.arr _) => true
  | _ => false

/-- The two durable keys of the room (`teams`, `updatedAt`), each `none`
when never written (storage `get` returns `undefined`). -/
structure StoredDoc where
  teams : Option (List Json)
  updatedAt : Option Nat

/-- Reading the stored document (lines 203-204 and 230-231):
`(await storage.get('teams')) || []` and
`(await storage.get('updatedAt')) || new Date().toISOString()`,
with `now` the current clock reading used for the fallback timestamp. -/
def loadStored (s : StoredDoc) (now : Nat) : List Json × Nat :=
  (s.teams.getD [], s.updatedAt.getD now)

/-- The storage contents after each `await` point of the persistence
sequence in `handlePost` (lines 250-251): first
`await storage.put('teams', teams)`, then
`await storage.put('updatedAt', updatedAt)`. Each list element is the
durable state observable if execution is interrupted right after that
step. -/
def persistStates (s : StoredDoc) (T : List Json) (now : Nat) : List StoredDoc :=
  [ { s with teams := some T },
    { teams := some T, updatedAt := some now } ]

mutual

/-- `JSON.stringify` on the modelled JSON values (string escaping and
JavaScript number formatting are abstracted: a string renders between
plain quotes and a number by its rational `toString`). -/
def Json.stringify : Json → String
  | .null => "null"
  | .bool true => "true"
  | .bool false => "false"
  | .num q => toString q
  | .str s => "\"" ++ s ++ "\""
  | .arr xs => "[" ++ stringifyArr xs ++ "]"
  | .obj fs => "\x7b" ++ stringifyObj fs ++ "\x7d"

/-- Comma-separated rendering of an array's elements. -/
def stringifyArr : List Json → String
  | [] => ""
  | [j] => j.stringify
  | j :: rest => j.stringify ++ "," ++ stringifyArr rest

/-- Comma-separated rendering of an object's fields. -/
def stringifyObj : List (String × Json) → String
  | [] => ""
  | [(k, v)] => "\"" ++ k ++ "\":" ++ v.stringify
  | (k, v) :: rest => "\"" ++ k ++ "\":" ++ v.stringify ++ "," ++ stringifyObj rest

end

/-- The SSE frame written for a payload string:
`data: <payload>\n\n` (lines 265 and 290). -/
def sseFrame (payloadString : String) : String :=
  "data: " ++ payloadString ++ "\n\n"

/-- Result of one `broadcast(payloadString)` call (lines 289-296): the
single encoded message, the channels whose `write` resolved, and the
session set afterwards. -/
structure BroadcastResult where
  message : String
  delivered : Finset Nat
  sessions : Finset Nat
deriving DecidableEq

/-- `broadcast(payloadString)` (lines 289-296): encode the frame once,
attempt `writer.write(message)` on every channel of the session set, and
on a rejected write delete that writer from the set (`.catch(() =>
this.sessions.delete(writer))`). The call itself never fails. -/
def broadcast (sessions : Finset Nat) (failing : Nat → Bool) (payloadString : String) :
    BroadcastResult :=
  { message := sseFrame payloadString
    delivered := sessions.filter (fun w => failing w = false)
    sessions := sessions.filter (fun w => failing w = false) }

/-- One heartbeat interval tick for writer `w` (lines 267-269):
`writer.write(encoder.encode(': keep-alive\n\n')).catch(() => \x7b\x7d)`.
The rejection handler is empty, so the session set is left unchanged
whether or not the write fails. -/
def heartbeatTick (sessions : Finset Nat) (failing : Nat → Bool) (w : Nat) : Finset Nat :=
  let _ := failing w
  sessions

/-- The state of a `LeagueRoom` durable object (lines 197-206): the two
durable storage keys, the in-memory `this.teams` / `this.updatedAt`
mirror, and the `this.sessions` set of listener channels. -/
structure Room where
  stored : StoredDoc
  teams : List Json
  updatedAt : Nat
  sessions : Finset Nat

/-- `buildPayload()` (lines 225-227). -/
def buildPayload (r : Room) : List Json × Nat :=
  (r.teams, r.updatedAt)

/-- `buildPayload()` rendered as the JSON object that
`JSON.stringify` receives (the timestamp is the ISO string, modelled by
`toString` of the clock value). -/
def payloadJson (T : List Json) (now : Nat) : Json :=
  Json.obj [("teams", Json.arr T), ("updatedAt", Json.str (toString now))]

/-- `handleGet()` (lines 229-233): re-read both storage keys into the
in-memory mirror (with the `|| []` / `|| now` fallbacks) and respond
with `buildPayload()`. -/
def handleGet (r : Room) (now : Nat) : Room × (List Json × Nat) :=
  let t := (loadStored r.stored now).1
  let u := (loadStored r.stored now).2
  ({ r with teams := t, updatedAt := u }, (t, u))

/-- Outcome of `handlePost` (lines 235-257): the 400 responses of lines
240 and 245, or the 200 response carrying `buildPayload()`. -/
inductive PostResult where
  | badJson : PostResult
  | invalidPayload : PostResult
  | ok : List Json × Nat → PostResult

/-- HTTP status of each `handlePost` outcome (lines 240, 245, 256). -/
def postStatus : PostResult → Nat
  | .badJson => 400
  | .invalidPayload => 400
  | .ok _ => 200

/-- Error message of each `handlePost` outcome (lines 240, 245). -/
def postError : PostResult → Option String
  | .badJson => some "Invalid JSON body"
  | .invalidPayload => some "Invalid payload: \"teams\" must be an array"
  | .ok _ => none

/-- `handlePost(request)` (lines 235-257). `body` is the result of
`request.json()`: `none` when the body does not parse (the `catch` of
line 239). On a valid `teams` array the handler sets the in-memory
fields, persists both keys (whose intermediate durable states are
`persistStates`), serializes `buildPayload()` once, broadcasts that one
payload string to the sessions, and returns the payload; `failing` says
which channel writes reject during the broadcast. -/
def handlePost (r : Room) (body : Option Json) (now : Nat) (failing : Nat → Bool) :
    Room × PostResult :=
  match body with
  | none => (r, .badJson)
  | some b =>
    match teamsField b with
    | some (.arr T) =>
      let stored' : StoredDoc := { teams := some T, updatedAt := some now }
      let br := broadcast r.sessions failing (payloadJson T now).stringify
      ({ stored := stored', teams := T, updatedAt := now, sessions := br.sessions },
        .ok (T, now))
    | _ => (r, .invalidPayload)

/-- Dispatch outcome of `LeagueRoom.fetch` (lines 208-223). -/
inductive RoomRoute where
  | getData : RoomRoute
  | postData : RoomRoute
  | stream : RoomRoute
  | methodNotAllowed : RoomRoute
  | notFound : RoomRoute
deriving DecidableEq

/-- `LeagueRoom.fetch(request)` routing (lines 208-223): `/api/data`
dispatches on GET/POST and otherwise answers 405; `/api/stream` is
handled only for GET; everything else falls through to the final 404. -/
def routeRoom (path method : String) : RoomRoute :=
  if path = "/api/data" then
    if method = "GET" then .getData
    else if method = "POST" then .postData
    else .methodNotAllowed
  else if path = "/api/stream" ∧ method = "GET" then .stream
  else .notFound

/-- HTTP status produced directly by the router (lines 215 and 222);
`none` for the outcomes delegated to a handler. -/
def routeStatus : RoomRoute → Option Nat
  | .methodNotAllowed => some 405
  | .notFound => some 404
  | _ => none

/-- `LEAGUE_TEAMS` (line 43). -/
def LEAGUE_TEAMS : List String :=
  ["GB", "DET", "KC", "DAL", "CIN", "BAL", "CHI", "PHI"]

/-- One scoreboard event (lines 55-65): the competitors' team
abbreviations (`c.team?.abbreviation`, `none` when the optional chain is
undefined), and `event.status?.type?.completed || false`. The fields not
used by the counting logic (`id`, `name`, `status?.type?.name`) are kept
for the response shape. -/
structure Event where
  id : String
  name : String
  statusName : Option String
  completed : Bool
  competitors : List (Option String)

/-- `competitors.map(c => c.team?.abbreviation).filter(t =>
LEAGUE_TEAMS.includes(t))` (lines 59-61); an undefined abbreviation is
never a member of the list. -/
def gameTeams (competitors : List (Option String)) : List String :=
  competitors.filterMap (fun o => o.bind (fun t =>
    if t ∈ LEAGUE_TEAMS then some t else none))

/-- The guard of line 63: the event counts as a league game. -/
def leagueGame (e : Event) : Bool :=
  (gameTeams e.competitors).length == 2

/-- One iteration of the scoreboard loop (lines 55-79) over the
accumulator `(games, allGamesFinal)`: a league game is appended and
`allGamesFinal` is cleared when the game is not complete. -/
def scanStep (acc : List Event × Bool) (e : Event) : List Event × Bool :=
  if leagueGame e then (acc.1 ++ [e], acc.2 && e.completed) else acc

/-- The scoreboard loop of `handleLiveScores` (lines 52-79), started from
`games = []`, `allGamesFinal = true`. -/
def scanEvents (events : List Event) : List Event × Bool :=
  events.foldl scanStep ([], true)

/-- The FanDuel scoring rule table (lines 23-41). -/
structure ScoringRules where
  passing_yards : ℚ
  passing_td : ℚ
  interception : ℚ
  passing_300_bonus : ℚ
  rushing_yards : ℚ
  rushing_td : ℚ
  rushing_100_bonus : ℚ
  reception : ℚ
  receiving_yards : ℚ
  receiving_td : ℚ
  receiving_100_bonus : ℚ
  two_point_conversion : ℚ
  fumble_lost : ℚ
  return_td : ℚ

/-- `SCORING` (lines 23-41). -/
def SCORING : ScoringRules :=
  { passing_yards := 4/100
    passing_td := 4
    interception := -1
    passing_300_bonus := 3
    rushing_yards := 1/10
    rushing_td := 6
    rushing_100_bonus := 3
    reception := 1/2
    receiving_yards := 1/10
    receiving_td := 6
    receiving_100_bonus := 3
    two_point_conversion := 2
    fumble_lost := -2
    return_td := 6 }

/-- The per-player stat record (lines 136-145), all fields defaulting to
zero. JavaScript numbers are modelled as rationals. -/
structure PStats where
  passing_yards : ℚ
  passing_tds : ℚ
  interceptions : ℚ
  rushing_yards : ℚ
  rushing_tds : ℚ
  receptions : ℚ
  receiving_yards : ℚ
  receiving_tds : ℚ

/-- The zero defaults of lines 136-145. -/
def zeroStats : PStats :=
  { passing_yards := 0, passing_tds := 0, interceptions := 0,
    rushing_yards := 0, rushing_tds := 0,
    receptions := 0, receiving_yards := 0, receiving_tds := 0 }

/-- `Math.round(x)`: round half toward positive infinity. -/
def jsRound (q : ℚ) : ℤ :=
  ⌊q + 1/2⌋

/-- The points computation of lines 170-192 for one stat record,
including the `Math.round(points * 10) / 10` of line 191. -/
def fanduelPoints (stats : PStats) : ℚ :=
  let points : ℚ := 0
  let points := points + stats.passing_yards * SCORING.passing_yards
  let points := points + stats.passing_tds * SCORING.passing_td
  let points := points + stats.interceptions * SCORING.interception
  let points := if stats.passing_yards ≥ 300 then points + SCORING.passing_300_bonus else points
  let points := points + stats.rushing_yards * SCORING.rushing_yards
  let points := points + stats.rushing_tds * SCORING.rushing_td
  let points := if stats.rushing_yards ≥ 100 then points + SCORING.rushing_100_bonus else points
  let points := points + stats.receptions * SCORING.reception
  let points := points + stats.receiving_yards * SCORING.receiving_yards
  let points := points + stats.receiving_tds * SCORING.receiving_td
  let points := if stats.receiving_yards ≥ 100 then points + SCORING.receiving_100_bonus else points
  (jsRound (points * 10) : ℚ) / 10

/-- One athlete's line inside a stat category (lines 125-128):
`athlete.displayName` (`none` when absent, defaulted to `''`), and the
`stats` array. A stat entry is the numeric value that
`parseFloat`/`parseInt` followed by `|| 0` yields: `none` models an
entry those parsers turn into `NaN` (then defaulted to 0). -/
structure AthleteLine where
  displayName : Option String
  stats : List (Option ℚ)

/-- One stat category of a team's box score (lines 122-123):
`statCategory.name` and its athletes. -/
structure StatCategory where
  name : Option String
  athletes : List AthleteLine

/-- One team's box-score block (lines 119-120):
`teamData.team?.abbreviation` and its stat categories. -/
structure TeamData where
  teamAbbr : Option String
  statistics : List StatCategory

/-- `parseFloat(stats[i]) || 0` / `parseInt(stats[i]) || 0`: a missing
index or an unparseable entry contributes 0. -/
def statAt (stats : List (Option ℚ)) (i : Nat) : ℚ :=
  ((stats.get? i).getD none).getD 0

/-- Prefix test on character lists, for the substring check. -/
def charHasPrefix : List Char → List Char → Bool
  | _, [] => true
  | [], _ :: _ => false
  | c :: cs, p :: ps => c == p && charHasPrefix cs ps

/-- Substring occurrence test on character lists. -/
def charHasSubstr : List Char → List Char → Bool
  | [], pat => charHasPrefix [] pat
  | c :: cs, pat => charHasPrefix (c :: cs) pat || charHasSubstr cs pat

/-- `name.toLowerCase()` as a character list. -/
def lowerChars (s : String) : List Char :=
  s.data.map Char.toLower

/-- `t.includes(pat)` (lines 150, 154, 157). -/
def hasSubstr (t : List Char) (pat : String) : Bool :=
  charHasSubstr t pat.data

/-- The category dispatch of lines 149-164 applied to one record:
passing lines need at least 8 stat entries, rushing and receiving lines
at least 4; any other line (or a shorter one) leaves the record as it
was. `name` is `statCategory.name` and `t` its
`name?.toLowerCase() || ''` of line 123. -/
def applyCategory (name : String) (stats : List (Option ℚ)) (ps : PStats) : PStats :=
  let t := lowerChars name
  if hasSubstr t "passing" ∧ 8 ≤ stats.length then
    { ps with passing_yards := statAt stats 1,
              passing_tds := statAt stats 3,
              interceptions := statAt stats 4 }
  else if hasSubstr t "rushing" ∧ 4 ≤ stats.length then
    { ps with rushing_yards := statAt stats 1,
              rushing_tds := statAt stats 3 }
  else if hasSubstr t "receiving" ∧ 4 ≤ stats.length then
    { ps with receptions := statAt stats 0,
              receiving_yards := statAt stats 1,
              receiving_tds := statAt stats 3 }
  else ps

/-- One stored player record (lines 132-147). -/
structure PlayerRec where
  name : String
  team : String
  stats : PStats

/-- The `players` object: an insertion-ordered association list keyed by
`playerKey`. -/
abbrev PlayerMap := List (String × PlayerRec)

/-- Lookup in the `players` object. -/
def findKey : PlayerMap → String → Option PlayerRec
  | [], _ => none
  | (k, v) :: rest, key => if k = key then some v else findKey rest key

/-- Store under a key: an existing key is updated in place, a new key is
appended (JavaScript object insertion order). -/
def setKey : PlayerMap → String → PlayerRec → PlayerMap
  | [], key, r => [(key, r)]
  | (k, v) :: rest, key, r =>
    if k = key then (key, r) :: rest else (k, v) :: setKey rest key r

/-- `` `${playerName}|${teamAbbr}` `` (line 130). -/
def playerKey (playerName teamAbbr : String) : String :=
  playerName ++ "|" ++ teamAbbr

/-- Processing of one athlete line (lines 125-165): create the record
with zero defaults when the key is new (lines 132-147), then apply the
category parse to its stats. -/
def processAthlete (teamAbbr catName : String) (m : PlayerMap) (a : AthleteLine) :
    PlayerMap :=
  let playerName := a.displayName.getD ""
  let key := playerKey playerName teamAbbr
  let rec0 := (findKey m key).getD { name := playerName, team := teamAbbr, stats := zeroStats }
  setKey m key { rec0 with stats := applyCategory catName a.stats rec0.stats }

/-- The record-building phase of `parsePlayerStats` (lines 114-167): the
triple nested loop over teams, categories and athletes. -/
def parsePlayerRecords (teams : List TeamData) : PlayerMap :=
  teams.foldl (fun m td =>
    td.statistics.foldl (fun m c =>
      c.athletes.foldl (processAthlete (td.teamAbbr.getD "") (c.name.getD "")) m) m) []

/-- `parsePlayerStats` (lines 114-195): the parsed records together with
the FanDuel points of the final loop (lines 170-192). -/
def parsePlayerStats (teams : List TeamData) : List (String × PlayerRec × ℚ) :=
  (parsePlayerRecords teams).map (fun kv => (kv.1, kv.2, fanduelPoints kv.2.stats))

/-- The request body `\x7b teams: T \x7d` of a well-formed POST. -/
def postBody (T : List Json) : Option Json :=
  some (Json.obj [("teams", Json.arr T)])

/-- Test for an object value, distinguishing the bodies that can carry a
`teams` property from every other parsed JSON body. -/
def Json.isObj : Json → Bool
  | .obj _ => true
  | _ => false

/-- A sample scoreboard: a completed game between two tracked teams and
an in-progress game with only one tracked competitor. -/
def sampleEvents : List Event :=
  [ { id := "401", name := "GB at DET", statusName := some "STATUS_FINAL",
      completed := true, competitors := [some "GB", some "DET"] },
    { id := "402", name := "KC at NYJ", statusName := some "STATUS_IN_PROGRESS",
      completed := false, competitors := [some "KC", some "NYJ"] } ]

/-- A sample passing stat line with the 8 entries the parser needs. -/
def samplePassLine : List (Option ℚ) :=
  [some 20, some 320, some 10, some 2, some 1, some 0, some 45, some 98]

/-- A sample rushing stat line with the 4 entries the parser needs. -/
def sampleRushLine : List (Option ℚ) :=
  [some 12, some 80, some 5, some 1]

/-- A sample receiving stat line with the 4 entries the parser needs. -/
def sampleRecvLine : List (Option ℚ) :=
  [some 5, some 100, some 20, some 1]

lemma jsRound_eq (q : ℚ) (z : ℤ) (h1 : (z : ℚ) ≤ q + 1/2) (h2 : q + 1/2 < (z : ℚ) + 1) :
    jsRound q = z := by
  rw [jsRound, Int.floor_eq_iff]
  exact ⟨h1, by linarith⟩

lemma teamsField_postBody (T : List Json) :
    teamsField (Json.obj [("teams", Json.arr T)]) = some (Json.arr T) := by
  simp [teamsField, jsOrDefault, truthy, getProp, lookupField]

lemma handlePost_postBody (r : Room) (T : List Json) (now : Nat) (f : Nat → Bool) :
    handlePost r (postBody T) now f =
      ({ stored := { teams := some T, updatedAt := some now }, teams := T, updatedAt := now,
         sessions := (broadcast r.sessions f (payloadJson T now).stringify).sessions },
        .ok (T, now)) := by
  simp [handlePost, postBody, teamsField_postBody]

lemma handlePost_not_array (r : Room) (b : Json) (now : Nat) (f : Nat → Bool)
    (h : isArrayOpt (teamsField b) = false) :
    handlePost r (some b) now f = (r, .invalidPayload) := by
  simp only [handlePost]
  cases hv : teamsField b with
  | none => rfl
  | some j =>
    cases j with
    | arr T => rw [hv] at h; simp [isArrayOpt] at h
    | null => rfl
    | bool b' => rfl
    | num q => rfl
    | str s => rfl
    | obj fs => rfl

lemma teamsField_of_not_obj (b : Json) (h : b.isObj = false) : teamsField b = none := by
  cases b with
  | obj fs => simp [Json.isObj] at h
  | null => rfl
  | bool b' => cases b' <;> rfl
  | num q => rw [teamsField, jsOrDefault]; split <;> rfl
  | str s => rw [teamsField, jsOrDefault]; split <;> rfl
  | arr xs => rfl

lemma scanEvents_foldl (evs : List Event) (acc : List Event × Bool) :
    evs.foldl scanStep acc =
      (acc.1 ++ evs.filter leagueGame,
        acc.2 && (evs.filter leagueGame).all (fun e => e.completed)) := by
  induction evs generalizing acc with
  | nil => simp
  | cons e rest ih =>
    rw [List.foldl_cons, List.filter_cons]
    by_cases hg : leagueGame e = true
    · rw [if_pos hg]
      rw [show scanStep acc e = (acc.1 ++ [e], acc.2 && e.completed) from if_pos hg]
      rw [ih]
      simp [Bool.and_assoc]
    · rw [if_neg hg]
      rw [show scanStep acc e = acc from if_neg hg]
      exact ih acc

lemma hasSubstr_pass_pass : hasSubstr (lowerChars "passing") "passing" = true := by decide

lemma hasSubstr_pass_rush : hasSubstr (lowerChars "passing") "rushing" = false := by decide

lemma hasSubstr_pass_recv : hasSubstr (lowerChars "passing") "receiving" = false := by decide

lemma hasSubstr_rush_pass : hasSubstr (lowerChars "rushing") "passing" = false := by decide

lemma hasSubstr_rush_rush : hasSubstr (lowerChars "rushing") "rushing" = true := by decide

lemma hasSubstr_rush_recv : hasSubstr (lowerChars "rushing") "receiving" = false := by decide

lemma hasSubstr_recv_pass : hasSubstr (lowerChars "receiving") "passing" = false := by decide

lemma hasSubstr_recv_rush : hasSubstr (lowerChars "receiving") "rushing" = false := by decide

lemma hasSubstr_recv_recv : hasSubstr (lowerChars "receiving") "receiving" = true := by decide

/-- Claim C1, counterexample: starting from a stored document with teams
`[null]` and timestamp 5, an accepted write of teams `["x"]` at time 10
reaches — after its first persistence step and before its second — a
durable state whose `teams` is already the new value while `updatedAt`
is still 5, and a load at time 11 observes exactly that mismatched pair;
so a new `teams` value is persisted without its matching fresh
`updatedAt` at an observable point. -/
theorem C1_counterexample :
    persistStates { teams := some [Json.null], updatedAt := some 5 } [Json.str "x"] 10 =
      [ { teams := some [Json.str "x"], updatedAt := some 5 },
        { teams := some [Json.str "x"], updatedAt := some 10 } ] ∧
    loadStored { teams := some [Json.str "x"], updatedAt := some 5 } 11 = ([Json.str "x"], 5) ∧
    (5 : Nat) ≠ 10 :=
  ⟨rfl, rfl, by decide⟩

/-- Claim C1, amended: every accepted write persists `teams` and then
`updatedAt` as two separate steps, both completed before `handlePost`
returns — the final durable state pairs the new `teams` with the fresh
`updatedAt` and a subsequent load observes that pair — but the pair is
not written atomically: the state after the first step alone holds the
new `teams` with the previous `updatedAt`. -/
theorem C1_amended_two_step_persist (s : StoredDoc) (T : List Json) (now later : Nat) :
    (persistStates s T now).getLast? = some { teams := some T, updatedAt := some now } ∧
    loadStored { teams := some T, updatedAt := some now } later = (T, now) ∧
    (persistStates s T now).head? = some { s with teams := some T } :=
  ⟨rfl, rfl, rfl⟩

/-- Claim C2, counterexample: with channel 0 the only active listener
and its writes failing, a heartbeat tick leaves channel 0 in the active
set (the empty `catch` of line 268 discards the failure), whereas the
same failing channel is removed by a `broadcast`; so a failed keep-alive
write does not remove the channel the way a failed publish delivery
does. -/
theorem C2_counterexample :
    (fun _ => true : Nat → Bool) 0 = true ∧
    heartbeatTick {0} (fun _ => true) 0 = {0} ∧
    (0 : Nat) ∈ heartbeatTick {0} (fun _ => true) 0 ∧
    (0 : Nat) ∉ (broadcast {0} (fun _ => true) "p").sessions :=
  ⟨rfl, rfl, by decide, by decide⟩

/-- Claim C2, amended: a failed write of the periodic keep-alive frame
is silently swallowed by the heartbeat's empty rejection handler and
never removes the channel from the hub's active-listener set — the
session set after a heartbeat tick is unchanged no matter which writes
fail; channels are dropped only by a failed document delivery during a
broadcast or by the connection's abort handler. -/
theorem C2_amended_heartbeat_keeps_channel (s : Finset Nat) (f : Nat → Bool) (w : Nat) :
    heartbeatTick s f w = s :=
  rfl

/-- Claim C6, counterexample: a POST to `/api/stream` — a known path
with an unsupported method — falls through `LeagueRoom.fetch` to the
final `Not Found` response with status 404, not to the 405 the claim
requires. -/
theorem C6_counterexample :
    routeRoom "/api/stream" "POST" = RoomRoute.notFound ∧
    routeStatus (routeRoom "/api/stream" "POST") = some 404 ∧
    routeRoom "/api/stream" "POST" ≠ RoomRoute.methodNotAllowed := by
  refine ⟨by decide, by decide, by decide⟩

/-- Claim C6, amended: under the two room routes, a request to an
unknown path yields 404, and a request to `/api/data` with a method
other than GET or POST yields 405; but a non-GET request to
`/api/stream` also yields 404 (the stream route is matched only
together with the GET method), not 405. -/
theorem C6_amended_routing (path method : String) :
    (path ≠ "/api/data" → path ≠ "/api/stream" →
      routeRoom path method = .notFound ∧ routeStatus (routeRoom path method) = some 404) ∧
    (path = "/api/data" → method ≠ "GET" → method ≠ "POST" →
      routeRoom path method = .methodNotAllowed ∧
      routeStatus (routeRoom path method) = some 405) ∧
    (path = "/api/stream" → method ≠ "GET" →
      routeRoom path method = .notFound ∧ routeStatus (routeRoom path method) = some 404) := by
  refine ⟨fun h1 h2 => ?_, fun h1 h2 h3 => ?_, fun h1 h2 => ?_⟩
  · rw [routeRoom, if_neg h1, if_neg (fun hc => h2 hc.1)]
    exact ⟨rfl, rfl⟩
  · subst h1
    rw [routeRoom, if_pos rfl, if_neg h2, if_neg h3]
    exact ⟨rfl, rfl⟩
  · subst h1
    rw [routeRoom, if_neg (by decide), if_neg (fun hc => h2 hc.2)]
    exact ⟨rfl, rfl⟩

/-- Claim C6, witness: the amended routing statement at the concrete
requests `GET /nope`, `PUT /api/data` and `POST /api/stream`. -/
theorem C6_witness :
    (routeRoom "/nope" "GET" = .notFound ∧ routeStatus (routeRoom "/nope" "GET") = some 404) ∧
    (routeRoom "/api/data" "PUT" = .methodNotAllowed ∧
      routeStatus (routeRoom "/api/data" "PUT") = some 405) ∧
    (routeRoom "/api/stream" "POST" = .notFound ∧
      routeStatus (routeRoom "/api/stream" "POST") = some 404) :=
  ⟨(C6_amended_routing "/nope" "GET").1 (by decide) (by decide),
    (C6_amended_routing "/api/data" "PUT").2.1 rfl (by decide) (by decide),
    (C6_amended_routing "/api/stream" "POST").2.2 rfl (by decide)⟩

/-- Claim C7: the scoring transform yields 22.8 points for a stat line
with 320 passing yards, 2 passing touchdowns and 1 interception (all
other stats zero, 300-yard bonus included), and 21.5 points for a stat
line with 5 receptions, 100 receiving yards and 1 receiving touchdown
(all other stats zero, 100-yard bonus included), after rounding to one
decimal place. -/
theorem C7_scoring_scenarios :
    fanduelPoints { zeroStats with passing_yards := 320, passing_tds := 2,
                                   interceptions := 1 } = 228/10 ∧
    fanduelPoints { zeroStats with receptions := 5, receiving_yards := 100,
                                   receiving_tds := 1 } = 215/10 := by
  constructor
  · simp only [fanduelPoints, zeroStats, SCORING]
    norm_num
    rw [jsRound_eq _ 228 (by norm_num) (by norm_num)]
    norm_num
  · simp only [fanduelPoints, zeroStats, SCORING]
    norm_num
    rw [jsRound_eq _ 215 (by norm_num) (by norm_num)]
    norm_num

/-- Claim C3: a POST of `\x7b teams: T \x7d` is accepted with payload
`(T, now)`, a following GET returns exactly that pair, and across two
successive accepted writes the returned `updatedAt` values are
non-decreasing (the server stamps each write with the current clock,
which never decreases, modelled by the hypothesis `t₁ ≤ t₂`). -/
theorem C3_post_get_monotone (r : Room) (T₁ T₂ : List Json) (t₁ t₂ g₁ g₂ : Nat)
    (f₁ f₂ : Nat → Bool) (hclock : t₁ ≤ t₂) :
    (handlePost r (postBody T₁) t₁ f₁).2 = .ok (T₁, t₁) ∧
    (handleGet (handlePost r (postBody T₁) t₁ f₁).1 g₁).2 = (T₁, t₁) ∧
    (handleGet (handlePost (handlePost r (postBody T₁) t₁ f₁).1 (postBody T₂) t₂ f₂).1 g₂).2
      = (T₂, t₂) ∧
    t₁ ≤ t₂ := by
  refine ⟨?_, ?_, ?_, hclock⟩
  · rw [handlePost_postBody]
  · rw [handlePost_postBody]
    rfl
  · rw [handlePost_postBody, handlePost_postBody]
    rfl

/-- Claim C3, witness: the round-trip and monotonicity statement at two
concrete writes, times 1 and 2, on a fresh room. -/
theorem C3_witness :
    (handlePost ⟨⟨none, none⟩, [], 0, ∅⟩ (postBody [Json.null]) 1 (fun _ => false)).2
      = .ok ([Json.null], 1) ∧
    (handleGet (handlePost ⟨⟨none, none⟩, [], 0, ∅⟩ (postBody [Json.null]) 1
        (fun _ => false)).1 7).2 = ([Json.null], 1) ∧
    (handleGet (handlePost (handlePost ⟨⟨none, none⟩, [], 0, ∅⟩ (postBody [Json.null]) 1
        (fun _ => false)).1 (postBody []) 2 (fun _ => false)).1 8).2 = ([], 2) ∧
    (1 : Nat) ≤ 2 :=
  C3_post_get_monotone ⟨⟨none, none⟩, [], 0, ∅⟩ [Json.null] [] 1 2 7 8
    (fun _ => false) (fun _ => false) (by decide)

/-- Claim C4: `broadcast` encodes the serialized document once and that
single message is what every surviving channel receives; a channel whose
write fails is removed from the session set, every channel whose write
succeeds still receives the message and stays subscribed, and the
accepted POST that triggered the broadcast still returns its 200 payload
whatever deliveries fail. -/
theorem C4_broadcast_spec (s : Finset Nat) (f : Nat → Bool) (p : String) (c : Nat)
    (r : Room) (T : List Json) (now : Nat) :
    (broadcast s f p).message = sseFrame p ∧
    (f c = true → c ∉ (broadcast s f p).sessions ∧ c ∉ (broadcast s f p).delivered) ∧
    (∀ c', c' ∈ s → f c' = false →
      c' ∈ (broadcast s f p).delivered ∧ c' ∈ (broadcast s f p).sessions) ∧
    (handlePost r (postBody T) now f).2 = .ok (T, now) := by
  refine ⟨rfl, fun hf => ?_, fun c' hc' hf' => ?_, ?_⟩
  · constructor <;>
    · rw [broadcast]
      simp [Finset.mem_filter, hf]
  · constructor <;>
    · rw [broadcast]
      simp [Finset.mem_filter, hc', hf']
  · rw [handlePost_postBody]

/-- Claim C4, witness: the broadcast statement with sessions `{0, 1}`
where only channel 0's write fails, and a concrete accepted POST. -/
theorem C4_witness :
    (broadcast {0, 1} (fun w => w == 0) "p").message = sseFrame "p" ∧
    ((fun w => w == 0 : Nat → Bool) 0 = true →
      (0 : Nat) ∉ (broadcast {0, 1} (fun w => w == 0) "p").sessions ∧
      (0 : Nat) ∉ (broadcast {0, 1} (fun w => w == 0) "p").delivered) ∧
    (∀ c', c' ∈ ({0, 1} : Finset Nat) → (fun w => w == 0 : Nat → Bool) c' = false →
      c' ∈ (broadcast {0, 1} (fun w => w == 0) "p").delivered ∧
      c' ∈ (broadcast {0, 1} (fun w => w == 0) "p").sessions) ∧
    (handlePost ⟨⟨none, none⟩, [], 0, {0, 1}⟩ (postBody []) 3 (fun w => w == 0)).2
      = .ok ([], 3) :=
  C4_broadcast_spec {0, 1} (fun w => w == 0) "p" 0
    ⟨⟨none, none⟩, [], 0, {0, 1}⟩ [] 3

/-- Claim C5: a POST whose parsed body lacks a `teams` field or whose
`teams` value is not an array is answered with status 400 and the error
message `Invalid payload: "teams" must be an array`, and the room —
stored document and in-memory mirror alike — is left unchanged. -/
theorem C5_invalid_teams_rejected (r : Room) (b : Json) (now : Nat) (f : Nat → Bool)
    (h : isArrayOpt (teamsField b) = false) :
    handlePost r (some b) now f = (r, .invalidPayload) ∧
    postStatus (handlePost r (some b) now f).2 = 400 ∧
    postError (handlePost r (some b) now f).2
      = some "Invalid payload: \"teams\" must be an array" := by
  have hm := handlePost_not_array r b now f h
  exact ⟨hm, by rw [hm]; rfl, by rw [hm]; rfl⟩

/-- Claim C5, witness: the rejection statement for the body
`\x7b teams: "x" \x7d`, whose `teams` value is a string. -/
theorem C5_witness :
    handlePost ⟨⟨some [], some 4⟩, [], 4, ∅⟩ (some (Json.obj [("teams", Json.str "x")])) 9
        (fun _ => false)
      = (⟨⟨some [], some 4⟩, [], 4, ∅⟩, .invalidPayload) ∧
    postStatus (handlePost ⟨⟨some [], some 4⟩, [], 4, ∅⟩
        (some (Json.obj [("teams", Json.str "x")])) 9 (fun _ => false)).2 = 400 ∧
    postError (handlePost ⟨⟨some [], some 4⟩, [], 4, ∅⟩
        (some (Json.obj [("teams", Json.str "x")])) 9 (fun _ => false)).2
      = some "Invalid payload: \"teams\" must be an array" :=
  C5_invalid_teams_rejected ⟨⟨some [], some 4⟩, [], 4, ∅⟩
    (Json.obj [("teams", Json.str "x")]) 9 (fun _ => false) (by decide)

/-- Claim C9: a POST whose body parses to a non-object JSON value —
null, a number, a string, a boolean or an array — is handled without
crashing (`body || \x7b\x7d` shields null and falsy values, and property
access on the other values yields undefined): the handler treats `teams`
as absent, answers 400 with the array-payload error message, and leaves
the room unchanged. -/
theorem C9_nonobject_body_rejected (r : Room) (b : Json) (now : Nat) (f : Nat → Bool)
    (h : b.isObj = false) :
    handlePost r (some b) now f = (r, .invalidPayload) ∧
    postStatus (handlePost r (some b) now f).2 = 400 ∧
    postError (handlePost r (some b) now f).2
      = some "Invalid payload: \"teams\" must be an array" := by
  have hm : handlePost r (some b) now f = (r, .invalidPayload) := by
    apply handlePost_not_array
    rw [teamsField_of_not_obj b h]
    rfl
  exact ⟨hm, by rw [hm]; rfl, by rw [hm]; rfl⟩

/-- Claim C9, witness: the rejection statement for the array body `[]`
(a parsed JSON value that is not an object). -/
theorem C9_witness :
    handlePost ⟨⟨some [], some 4⟩, [], 4, ∅⟩ (some (Json.arr [])) 9 (fun _ => false)
      = (⟨⟨some [], some 4⟩, [], 4, ∅⟩, .invalidPayload) ∧
    postStatus (handlePost ⟨⟨some [], some 4⟩, [], 4, ∅⟩ (some (Json.arr [])) 9
        (fun _ => false)).2 = 400 ∧
    postError (handlePost ⟨⟨some [], some 4⟩, [], 4, ∅⟩ (some (Json.arr [])) 9
        (fun _ => false)).2 = some "Invalid payload: \"teams\" must be an array" :=
  C9_nonobject_body_rejected ⟨⟨some [], some 4⟩, [], 4, ∅⟩ (Json.arr []) 9
    (fun _ => false) rfl

/-- Claim C8: the scoreboard scan counts an event as a league game
exactly when the list of its competitors whose team abbreviation lies in
the tracked set has length 2 (the `games` list is precisely the filter
of the events by that condition), and `allGamesFinal` is true exactly
when every counted game is completed — in particular it is true when no
event is counted. -/
theorem C8_league_scan (events : List Event) :
    (scanEvents events).1 = events.filter leagueGame ∧
    (∀ e : Event, leagueGame e = true ↔ (gameTeams e.competitors).length = 2) ∧
    ((scanEvents events).2 = true ↔ ∀ e ∈ events, leagueGame e = true → e.completed = true) ∧
    (events.filter leagueGame = [] → (scanEvents events).2 = true) := by
  have hs := scanEvents_foldl events ([], true)
  rw [scanEvents] at *
  refine ⟨?_, ?_, ?_, ?_⟩
  · rw [hs]
    simp
  · intro e
    simp [leagueGame]
  · rw [hs]
    simp only [Bool.true_and, List.all_eq_true, List.mem_filter, and_imp]
  · intro hnil
    rw [hs, hnil]
    simp

/-- Claim C8, witness: the scan statement on a concrete scoreboard with
one tracked-versus-tracked completed game and one game with a single
tracked competitor. -/
theorem C8_witness :
    (scanEvents sampleEvents).1 = sampleEvents.filter leagueGame ∧
    (∀ e : Event, leagueGame e = true ↔ (gameTeams e.competitors).length = 2) ∧
    ((scanEvents sampleEvents).2 = true ↔
      ∀ e ∈ sampleEvents, leagueGame e = true → e.completed = true) ∧
    (sampleEvents.filter leagueGame = [] → (scanEvents sampleEvents).2 = true) :=
  C8_league_scan sampleEvents

/-- Claim C10: player records are keyed by
`displayName ++ "|" ++ teamAbbreviation`; passing, rushing and receiving
lines for the same key merge into the one record for that key, a
category line touching only its own fields (a receiving-only record
keeps every passing and rushing field at the zero default); a passing
line is parsed only when its stats array has at least 8 entries and a
rushing or receiving line only with at least 4, and a shorter line
leaves the record's fields unchanged — the record still exists with its
defaults instead of the parse failing. -/
theorem C10_stat_records (ab nm : String) (ps ru rs shortP short : List (Option ℚ))
    (h8 : 8 ≤ ps.length) (h4u : 4 ≤ ru.length) (h4 : 4 ≤ rs.length)
    (hP : shortP.length < 8) (hR : short.length < 4) (st : PStats) :
    parsePlayerRecords [⟨some ab, [⟨some "passing", [⟨some nm, ps⟩]⟩,
                                   ⟨some "rushing", [⟨some nm, ru⟩]⟩,
                                   ⟨some "receiving", [⟨some nm, rs⟩]⟩]⟩] =
      [(playerKey nm ab,
        { name := nm, team := ab,
          stats := { passing_yards := statAt ps 1, passing_tds := statAt ps 3,
                     interceptions := statAt ps 4,
                     rushing_yards := statAt ru 1, rushing_tds := statAt ru 3,
                     receptions := statAt rs 0, receiving_yards := statAt rs 1,
                     receiving_tds := statAt rs 3 } })] ∧
    parsePlayerRecords [⟨some ab, [⟨some "receiving", [⟨some nm, rs⟩]⟩]⟩] =
      [(playerKey nm ab,
        { name := nm, team := ab,
          stats := { passing_yards := 0, passing_tds := 0, interceptions := 0,
                     rushing_yards := 0, rushing_tds := 0,
                     receptions := statAt rs 0, receiving_yards := statAt rs 1,
                     receiving_tds := statAt rs 3 } })] ∧
    applyCategory "passing" shortP st = st ∧
    applyCategory "rushing" short st = st ∧
    applyCategory "receiving" short st = st ∧
    parsePlayerRecords [⟨some ab, [⟨some "passing", [⟨some nm, shortP⟩]⟩]⟩] =
      [(playerKey nm ab, { name := nm, team := ab, stats := zeroStats })] := by
  have hP' : ¬ 8 ≤ shortP.length := not_le.mpr hP
  have hR4 : ¬ 4 ≤ short.length := not_le.mpr hR
  refine ⟨?_, ?_, ?_, ?_, ?_, ?_⟩
  · simp [parsePlayerRecords, processAthlete, playerKey, findKey, setKey, applyCategory,
      hasSubstr_pass_pass, hasSubstr_rush_pass, hasSubstr_rush_rush, hasSubstr_recv_pass,
      hasSubstr_recv_rush, hasSubstr_recv_recv, hasSubstr_pass_rush, hasSubstr_pass_recv,
      hasSubstr_rush_recv, h8, h4u, h4, zeroStats]
  · simp [parsePlayerRecords, processAthlete, playerKey, findKey, setKey, applyCategory,
      hasSubstr_recv_pass, hasSubstr_recv_rush, hasSubstr_recv_recv, h4, zeroStats]
  · simp [applyCategory, hasSubstr_pass_pass, hasSubstr_pass_rush, hasSubstr_pass_recv, hP']
  · simp [applyCategory, hasSubstr_rush_pass, hasSubstr_rush_rush, hasSubstr_rush_recv, hR4]
  · simp [applyCategory, hasSubstr_recv_pass, hasSubstr_recv_rush, hasSubstr_recv_recv, hR4]
  · simp [parsePlayerRecords, processAthlete, playerKey, findKey, setKey, applyCategory,
      hasSubstr_pass_pass, hasSubstr_pass_rush, hasSubstr_pass_recv, hP']

/-- Claim C10, witness: the parsing statement at a concrete player
`A|GB` with full passing, rushing and receiving lines, a too-short
passing line `[none]` and an empty short line. -/
theorem C10_witness :
    parsePlayerRecords [⟨some "GB", [⟨some "passing", [⟨some "A", samplePassLine⟩]⟩,
                                     ⟨some "rushing", [⟨some "A", sampleRushLine⟩]⟩,
                                     ⟨some "receiving", [⟨some "A", sampleRecvLine⟩]⟩]⟩] =
      [(playerKey "A" "GB",
        { name := "A", team := "GB",
          stats := { passing_yards := statAt samplePassLine 1,
                     passing_tds := statAt samplePassLine 3,
                     interceptions := statAt samplePassLine 4,
                     rushing_yards := statAt sampleRushLine 1,
                     rushing_tds := statAt sampleRushLine 3,
                     receptions := statAt sampleRecvLine 0,
                     receiving_yards := statAt sampleRecvLine 1,
                     receiving_tds := statAt sampleRecvLine 3 } })] ∧
    parsePlayerRecords [⟨some "GB", [⟨some "receiving", [⟨some "A", sampleRecvLine⟩]⟩]⟩] =
      [(playerKey "A" "GB",
        { name := "A", team := "GB",
          stats := { passing_yards := 0, passing_tds := 0, interceptions := 0,
                     rushing_yards := 0, rushing_tds := 0,
                     receptions := statAt sampleRecvLine 0,
                     receiving_yards := statAt sampleRecvLine 1,
                     receiving_tds := statAt sampleRecvLine 3 } })] ∧
    applyCategory "passing" [none] zeroStats = zeroStats ∧
    applyCategory "rushing" [] zeroStats = zeroStats ∧
    applyCategory "receiving" [] zeroStats = zeroStats ∧
    parsePlayerRecords [⟨some "GB", [⟨some "passing", [⟨some "A", [none]⟩]⟩]⟩] =
      [(playerKey "A" "GB", { name := "A", team := "GB", stats := zeroStats })] :=
  C10_stat_records "GB" "A" samplePassLine sampleRushLine sampleRecvLine [none] []
    (by decide) (by decide) (by decide) (by decide) (by decide) zeroStats
